import Mathlib

/-!
Verification of the slugline user/role management core, a shallow embedding of
`src/user/models.py` (the `SluglineUser` model and `UserSerializer`).

Modelling conventions:
- a user record is a structure; the many-to-many group relation is a `Finset String`
  of group names (the authorization store is assumed to hold every named group,
  per the external-interface contract, so `Group.objects.get` never fails);
- the database is a `List SluglineUser`; `objects.create` appends a row and
  `save` / group writes update the freshly inserted row in place;
- Python dict bracket access on the validated payload is an `Option` match whose
  `none` branch is a `KeyError`; `.get(k, d)` is `Option.getD`;
- the external password hasher, email validator and password-strength policy are
  parameters of the embedding (they are out-of-scope collaborators).
-/

/-- The static role hierarchy table `GROUPS` from models.py. -/
def GROUPS : List (String × List String) :=
  [("Contributor", []),
   ("Copyeditor", ["Contributor"]),
   ("Editor", ["Copyeditor", "Contributor"])]

/-- The `FORBIDDEN_USERNAMES` set from models.py. -/
def FORBIDDEN_USERNAMES : List String :=
  ["admin", "administrator", "root", "toor", "sudo", "sudoers"]

/-- Python `s.lower()`, characterwise (all names involved are ASCII). -/
def pyLower (s : String) : String :=
  String.mk (s.data.map Char.toLower)

/-- Python `s.replace(" ", "_")`: the pattern is a single character, so the
replacement is characterwise. -/
def pyReplaceSpace (s : String) : String :=
  String.mk (s.data.map (fun c => if c = ' ' then '_' else c))

/-- Python `role in GROUPS` / `GROUPS[role]`: look a role key up in the hierarchy
table, returning its list of implied subordinate role names. -/
def groupsLookup (r : String) : Option (List String) :=
  (GROUPS.find? (fun p => p.1 == r)).map (fun p => p.2)

/-- A `SluglineUser` row. `groups` is the set of names of the groups the user is a
member of (the many-to-many relation); `password` is the contents of the persisted
password column. `is_staff` is read-only through the serializer. -/
structure SluglineUser where
  username : String
  password : String
  first_name : String
  last_name : String
  email : String
  writer_name : String
  is_staff : Bool
  groups : Finset String
deriving DecidableEq

/-- The `is_editor` property: membership in the group named `Editor`. -/
def SluglineUser.is_editor (u : SluglineUser) : Bool :=
  decide ("Editor" ∈ u.groups)

/-- The `role` property from models.py: highest role held, with the staff flag
taking precedence, then Editor, then Copyeditor, default Contributor. -/
def SluglineUser.role (u : SluglineUser) : String :=
  if u.is_staff then "Staff"
  else if "Editor" ∈ u.groups then "Editor"
  else if "Copyeditor" ∈ u.groups then "Copyeditor"
  else "Contributor"

/-- A validated serializer payload: each writable field of `UserSerializer.Meta.fields`
is present (`some`) or absent (`none`). `is_staff` is read-only and never appears. -/
structure ValidatedData where
  username : Option String := none
  password : Option String := none
  first_name : Option String := none
  last_name : Option String := none
  email : Option String := none
  writer_name : Option String := none
  is_editor : Option Bool := none
  role : Option String := none
deriving DecidableEq

/-- Errors a serializer operation can surface: a DRF `ValidationError` carrying a
field-keyed map of machine-readable code lists, or an uncaught Python `KeyError`
from bracket access on a missing payload key. -/
inductive SerializerError where
  | validationError (errors : List (String × List String))
  | keyError (key : String)
deriving DecidableEq

/-- `SluglineUser.objects.create(**validated_data)`: build and insert a fresh row.
Missing payload fields default to the empty string; the password column receives
the raw payload value at this point; the `is_editor` and `role` keyword arguments
only reach property setters that never touch the group relation; `is_staff` is
read-only and defaults to false; the group set starts empty. -/
def objectsCreate (vd : ValidatedData) : SluglineUser :=
  { username := vd.username.getD ""
    password := vd.password.getD ""
    first_name := vd.first_name.getD ""
    last_name := vd.last_name.getD ""
    email := vd.email.getD ""
    writer_name := vd.writer_name.getD ""
    is_staff := false
    groups := ∅ }

/-- `user.set_password(raw)`: store only `hash raw` in the password field, where
`hash` is the external one-way hashing routine. -/
def set_password (hash : String → String) (u : SluglineUser) (raw : String) : SluglineUser :=
  { u with password := hash raw }

/-- `user.groups.add(Group.objects.get(name=g))`. -/
def groups_add (u : SluglineUser) (g : String) : SluglineUser :=
  { u with groups := insert g u.groups }

/-- `user.groups.remove(Group.objects.get(name=g))`. -/
def groups_remove (u : SluglineUser) (g : String) : SluglineUser :=
  { u with groups := u.groups.erase g }

/-- Persist the current in-memory state of the freshly inserted user over its row
(the last row): models `user.save()` and the write-through group-relation updates. -/
def saveLast (db : List SluglineUser) (u : SluglineUser) : List SluglineUser :=
  db.dropLast ++ [u]

/-- `UserSerializer.create(validated_data)` from models.py, step by step:
uniqueness/forbidden-username check, `objects.create` (inserting the row with the
raw password), `set_password` + `save`, then the group grants: Contributor always,
Editor when `validated_data["is_editor"]`, and the full chain when
`validated_data["role"]` is a hierarchy key. Returns the operation result and the
database after the operation. -/
def create (hash : String → String) (db : List SluglineUser) (vd : ValidatedData) :
    Except SerializerError SluglineUser × List SluglineUser :=
  if db.any (fun u => vd.username == some u.username)
      || FORBIDDEN_USERNAMES.contains (pyLower (vd.username.getD "")) then
    (.error (.validationError [("username", ["USER.USERNAME.ALREADY_EXISTS"])]), db)
  else
    let user := objectsCreate vd
    let db := db ++ [user]
    match vd.password with
    | none => (.error (.keyError "password"), db)
    | some raw =>
      let user := set_password hash user raw
      let db := saveLast db user
      let user := groups_add user "Contributor"
      match vd.is_editor with
      | none => (.error (.keyError "is_editor"), saveLast db user)
      | some ed =>
        let user := if ed then groups_add user "Editor" else user
        match vd.role with
        | none => (.error (.keyError "role"), saveLast db user)
        | some r =>
          match groupsLookup r with
          | some base_roles =>
            let user := base_roles.foldl groups_add user
            let user := groups_add user r
            (.ok user, saveLast db user)
          | none => (.ok user, saveLast db user)

/-- `UserSerializer.update(instance, validated_data)` from models.py: conditional
`set_password`, `.get`-style overwrite of the four displayable fields, `save`,
the `is_editor` flag branch (explicit true adds Editor, explicit false removes it,
absence does nothing), then the role reconciliation by set difference when
`validated_data.get("role")` is a hierarchy key. The trailing `instance.role =
new_roles` assignment only fills a private in-memory cache that no read path of
the verified surface consults, so it is not represented. -/
def update (hash : String → String) (inst : SluglineUser) (vd : ValidatedData) :
    SluglineUser :=
  let inst :=
    match vd.password with
    | some raw => set_password hash inst raw
    | none => inst
  let inst := { inst with
    first_name := vd.first_name.getD inst.first_name
    last_name := vd.last_name.getD inst.last_name
    email := vd.email.getD inst.email
    writer_name := vd.writer_name.getD inst.writer_name }
  let inst :=
    if vd.is_editor.getD false then groups_add inst "Editor"
    else if !(vd.is_editor.getD true) then groups_remove inst "Editor"
    else inst
  match vd.role with
  | none => inst
  | some r =>
    match groupsLookup r with
    | none => inst
    | some base_roles =>
      let new_roles : Finset String := insert r base_roles.toFinset
      let current_roles := inst.groups
      let inst := ((current_roles \ new_roles).sort (· ≤ ·)).foldl groups_remove inst
      let inst := ((new_roles \ current_roles).sort (· ≤ ·)).foldl groups_add inst
      inst

/-- One violation reported by the external password-strength policy: a rule code
plus the optional ordered list of rule parameters, each already rendered to a
string (Python `map(str, e.params.values())`). -/
structure Violation where
  code : String
  params : Option (List String)
deriving DecidableEq

/-- Python `s.replace("_", ".", 1)` on the character list: only the first
underscore becomes a dot. -/
def replaceFirstUnderscore : List Char → List Char
  | [] => []
  | c :: cs => if c = '_' then '.' :: cs else c :: replaceFirstUnderscore cs

/-- The error-code synthesis from `UserSerializer.validate`:
`"USER." + e.code.replace("_", ".", 1).upper() + ("." +
",".join(map(str, e.params.values())).replace(" ", "_") if e.params is not None
else "")`. -/
def violationToCode (e : Violation) : String :=
  "USER." ++ String.mk ((replaceFirstUnderscore e.code.data).map Char.toUpper)
    ++ (match e.params with
        | some ps => "." ++ pyReplaceSpace (String.intercalate "," ps)
        | none => "")

/-- `UserSerializer.validate(data)` from models.py, parameterised by the external
email validator and password policy. Email errors are accumulated first, then the
password errors with every violation mapped through `violationToCode`; a nonempty
accumulator raises one combined `ValidationError`, otherwise the data passes. -/
def validate (emailValid : String → Bool) (passwordPolicy : String → List Violation)
    (data : ValidatedData) : Except (List (String × List String)) ValidatedData :=
  let email_errors : List (String × List String) :=
    match data.email with
    | some e => if emailValid e then [] else [("email", ["USER.EMAIL.INVALID"])]
    | none => []
  let password_errors : List (String × List String) :=
    match data.password with
    | some pw =>
      match (passwordPolicy pw).map violationToCode with
      | [] => []
      | codes => [("password", codes)]
    | none => []
  let errors_list := email_errors ++ password_errors
  if errors_list.isEmpty then .ok data else .error errors_list

/-- Modelled from the spec: the request layer runs the validation pass strictly
before the create mutation, so a payload only reaches `create` once `validate`
has passed, and a validation failure leaves the database untouched. -/
def serializerSaveCreate (emailValid : String → Bool)
    (passwordPolicy : String → List Violation) (hash : String → String)
    (db : List SluglineUser) (data : ValidatedData) :
    Except SerializerError SluglineUser × List SluglineUser :=
  match validate emailValid passwordPolicy data with
  | .error errs => (.error (.validationError errs), db)
  | .ok vd => create hash db vd

/-- Modelled from the spec: the request layer runs the validation pass strictly
before the update mutation, so an instance is only mutated once `validate` has
passed. -/
def serializerSaveUpdate (emailValid : String → Bool)
    (passwordPolicy : String → List Violation) (hash : String → String)
    (inst : SluglineUser) (data : ValidatedData) :
    Except SerializerError SluglineUser :=
  match validate emailValid passwordPolicy data with
  | .error errs => .error (.validationError errs)
  | .ok vd => .ok (update hash inst vd)

/-- Modelled from the claim wording, for comparison with `violationToCode`: every
underscore of the rule name becomes a dot and the name is uppercased; the
parameters have spaces replaced by underscores and are joined by dots. -/
def violationToCodeClaim (e : Violation) : String :=
  "USER." ++ String.mk (e.code.data.map (fun c => Char.toUpper (if c = '_' then '.' else c)))
    ++ (match e.params with
        | some ps => "." ++ String.intercalate "." (ps.map pyReplaceSpace)
        | none => "")

/-- The rule-name transformation of the amended claim, stated structurally: the
segment before the first underscore is uppercased, the first underscore becomes a
dot, and the rest of the name is uppercased with its remaining underscores kept. -/
def upperFirstSegSplit : List Char → List Char
  | [] => []
  | c :: cs => if c = '_' then '.' :: cs.map Char.toUpper else c.toUpper :: upperFirstSegSplit cs

/-- The violation-code mapping as the amended claim states it: `USER.`, then the
rule name transformed by `upperFirstSegSplit`, then, when the rule has parameters,
a dot and the parameters joined by commas with spaces replaced by underscores. -/
def violationToCodeAmended (e : Violation) : String :=
  "USER." ++ String.mk (upperFirstSegSplit e.code.data)
    ++ (match e.params with
        | some ps => "." ++ pyReplaceSpace (String.intercalate "," ps)
        | none => "")

/-- The update payload holding only a role key. -/
def rolePayload (r : String) : ValidatedData := { role := some r }

/-- A concrete stand-in for the external password hasher, used by witnesses. -/
def hashW (s : String) : String := "pbkdf2_sha256$" ++ s

/-- A concrete user holding only the Contributor group, used by witnesses. -/
def userContribW : SluglineUser :=
  { username := "kat", password := "pbkdf2_sha256$x", first_name := "Kat",
    last_name := "T", email := "kat@example.com", writer_name := "kat",
    is_staff := false, groups := {"Contributor"} }

/-- A concrete staff user who is also in the Editor group, used by witnesses. -/
def staffEditorW : SluglineUser :=
  { userContribW with
    username := "boss"
    is_staff := true
    groups := {"Editor", "Copyeditor", "Contributor"} }

/-- A concrete non-staff member of the Editor group, used by witnesses. -/
def editorW : SluglineUser :=
  { userContribW with
    username := "ed"
    groups := {"Editor", "Copyeditor", "Contributor"} }

/-- A concrete validated create payload requesting the Copyeditor role. -/
def vdCopyeditorW : ValidatedData :=
  { username := some "jdoe", password := some "Str0ngPass99",
    email := some "j@x.com", is_editor := some false, role := some "Copyeditor" }

/-- A concrete create payload whose raw password makes the transient plaintext
persistence visible. -/
def vdPlainPasswordW : ValidatedData :=
  { username := some "jdoe", password := some "hunter2", is_editor := some false,
    role := some "Contributor" }

/-- A validated create payload with the optional role field absent. -/
def vdNoRoleW : ValidatedData :=
  { username := some "jdoe", password := some "hunter2", is_editor := some false }

/-- A concrete create payload with a forbidden username in mixed case. -/
def vdAdminW : ValidatedData :=
  { username := some "Admin", password := some "pw", is_editor := some false,
    role := some "Contributor" }

/-- A concrete editor-role create payload, used by the round-trip witness. -/
def vdEditorW : ValidatedData :=
  { username := some "neweditor", password := some "Str0ngPass99",
    is_editor := some false, role := some "Editor" }

/-- Folding `groups_add` over a list grants exactly the union of the listed names. -/
theorem groups_add_foldl (l : List String) (u : SluglineUser) :
    (l.foldl groups_add u).groups = u.groups ∪ l.toFinset := by
  induction l generalizing u with
  | nil => simp
  | cons a l ih =>
    rw [List.foldl_cons, ih]
    ext x
    simp [groups_add]

/-- Folding `groups_remove` over a list revokes exactly the listed names. -/
theorem groups_remove_foldl (l : List String) (u : SluglineUser) :
    (l.foldl groups_remove u).groups = u.groups \ l.toFinset := by
  induction l generalizing u with
  | nil => simp
  | cons a l ih =>
    rw [List.foldl_cons, ih]
    ext x
    simp [groups_remove]
    all_goals tauto

/-- The symmetric-difference reconciliation of `update` always lands exactly on
the target role set, whatever the current group set is. -/
theorem reconcile_groups (u : SluglineUser) (new_roles : Finset String) :
    (((new_roles \ u.groups).sort (· ≤ ·)).foldl groups_add
      (((u.groups \ new_roles).sort (· ≤ ·)).foldl groups_remove u)).groups
      = new_roles := by
  rw [groups_add_foldl, groups_remove_foldl, Finset.sort_toFinset, Finset.sort_toFinset]
  ext x
  simp
  all_goals tauto

/-- After an update whose payload names a hierarchy role, the group set is exactly
the named role plus its implied subordinate roles. -/
theorem update_role_groups (hash : String → String) (inst : SluglineUser)
    (vd : ValidatedData) (r : String) (base_roles : List String)
    (hr : vd.role = some r) (hl : groupsLookup r = some base_roles) :
    (update hash inst vd).groups = insert r base_roles.toFinset := by
  simp only [update, hr, hl]
  exact reconcile_groups _ _

/-- C2: for every user and every role r that is a key of the hierarchy table,
applying the update operation with payload {role: r} twice in succession yields
the same final group set as applying it once: the symmetric-difference
reconciliation is idempotent. -/
theorem update_role_idempotent (hash : String → String) (inst : SluglineUser)
    (r : String) (base_roles : List String) (hl : groupsLookup r = some base_roles) :
    (update hash (update hash inst (rolePayload r)) (rolePayload r)).groups
      = (update hash inst (rolePayload r)).groups := by
  rw [update_role_groups hash _ (rolePayload r) r base_roles rfl hl,
    update_role_groups hash _ (rolePayload r) r base_roles rfl hl]

/-- Witness for C2 at role Copyeditor on a concrete user. -/
theorem update_role_idempotent_witness :
    (update hashW (update hashW userContribW (rolePayload "Copyeditor"))
        (rolePayload "Copyeditor")).groups
      = (update hashW userContribW (rolePayload "Copyeditor")).groups :=
  update_role_idempotent hashW userContribW "Copyeditor" ["Contributor"] rfl

/-- C10: for every user and every update payload containing both is_editor=false
and role="Editor", the final group set after update contains Editor: the flag
removal is applied before the role reconciliation, so the role-derived grant
determines the final state. -/
theorem update_role_overrides_editor_flag (hash : String → String)
    (inst : SluglineUser) (vd : ValidatedData)
    (hf : vd.is_editor = some false) (hr : vd.role = some "Editor") :
    "Editor" ∈ (update hash inst vd).groups := by
  rw [update_role_groups hash inst vd "Editor" ["Copyeditor", "Contributor"] hr rfl]
  exact Finset.mem_insert_self _ _

/-- Witness for C10 on a concrete user and payload. -/
theorem update_role_overrides_editor_flag_witness :
    "Editor" ∈ (update hashW userContribW
      { is_editor := some false, role := some "Editor" }).groups :=
  update_role_overrides_editor_flag hashW userContribW _ rfl rfl

/-- C8: the role classification is a pure function of the record with fixed
precedence: staff flag first, regardless of group membership, then the Editor
group, then the Copyeditor group, then the Contributor default. -/
theorem role_precedence (u : SluglineUser) :
    (u.is_staff = true → u.role = "Staff") ∧
    (u.is_staff = false → "Editor" ∈ u.groups → u.role = "Editor") ∧
    (u.is_staff = false → "Editor" ∉ u.groups → "Copyeditor" ∈ u.groups →
      u.role = "Copyeditor") ∧
    (u.is_staff = false → "Editor" ∉ u.groups → "Copyeditor" ∉ u.groups →
      u.role = "Contributor") := by
  refine ⟨fun h => ?_, fun h he => ?_, fun h he hc => ?_, fun h he hc => ?_⟩ <;>
    simp_all [SluglineUser.role]

/-- Witness for C8: a staff member of the Editor group classifies as Staff, a
non-staff member of the Editor group classifies as Editor. -/
theorem role_precedence_witness :
    staffEditorW.role = "Staff" ∧ editorW.role = "Editor" :=
  ⟨(role_precedence staffEditorW).1 rfl,
    (role_precedence editorW).2.1 rfl (by decide)⟩

/-- C4: a create payload whose username is already taken (case-sensitively) or
whose lowercased username is forbidden fails with the USER.USERNAME.ALREADY_EXISTS
validation error keyed "username", regardless of the other fields, and the
database is unchanged: no record is inserted. -/
theorem create_conflict_error (hash : String → String) (db : List SluglineUser)
    (vd : ValidatedData)
    (h : (∃ u ∈ db, vd.username = some u.username)
        ∨ pyLower (vd.username.getD "") ∈ FORBIDDEN_USERNAMES) :
    create hash db vd
      = (.error (.validationError [("username", ["USER.USERNAME.ALREADY_EXISTS"])]), db) := by
  have hb : (db.any (fun u => vd.username == some u.username)
      || FORBIDDEN_USERNAMES.contains (pyLower (vd.username.getD ""))) = true := by
    simp only [Bool.or_eq_true, List.any_eq_true]
    rcases h with ⟨u, hu, he⟩ | hf
    · exact Or.inl ⟨u, hu, by simp [he]⟩
    · refine Or.inr ?_
      simpa using hf
  simp only [create, hb]
  rfl

/-- Witness for C4: username Admin in mixed case is rejected without insertion. -/
theorem create_conflict_error_witness :
    create hashW [] vdAdminW
      = (.error (.validationError [("username", ["USER.USERNAME.ALREADY_EXISTS"])]), []) :=
  create_conflict_error hashW [] vdAdminW (Or.inr (by decide))

/-- C1: after a successful create whose payload requests hierarchy role r, the
group set of the stored user is exactly the requested role plus its implied
subordinate roles, plus Contributor unconditionally, plus Editor when the
is_editor flag is true; the grants are a pure union, with no removals. -/
theorem create_grants_role_union (hash : String → String) (db : List SluglineUser)
    (vd : ValidatedData) (r : String) (base_roles : List String) (pw : String) (ed : Bool)
    (hc : (db.any (fun u => vd.username == some u.username)
        || FORBIDDEN_USERNAMES.contains (pyLower (vd.username.getD ""))) = false)
    (hp : vd.password = some pw) (he : vd.is_editor = some ed) (hr : vd.role = some r)
    (hl : groupsLookup r = some base_roles) :
    ∃ u, (create hash db vd).1 = .ok u ∧
      u.groups = insert r base_roles.toFinset ∪ {"Contributor"}
        ∪ (if ed then {"Editor"} else (∅ : Finset String)) := by
  cases ed with
  | false =>
    simp only [create, hc, hp, he, hr, hl, Bool.false_eq_true, if_false]
    exact ⟨_, rfl, by
      ext x
      simp [groups_add, groups_add_foldl, set_password, objectsCreate] <;> tauto⟩
  | true =>
    simp only [create, hc, hp, he, hr, hl, Bool.false_eq_true, if_false,
      eq_self_iff_true, if_true]
    exact ⟨_, rfl, by
      ext x
      simp [groups_add, groups_add_foldl, set_password, objectsCreate] <;> tauto⟩

/-- Witness for C1: the spec example payload with role Copyeditor yields exactly
the Contributor and Copyeditor groups. -/
theorem create_grants_role_union_witness :
    ∃ u, (create hashW [] vdCopyeditorW).1 = .ok u ∧
      u.groups = insert "Copyeditor" (["Contributor"] : List String).toFinset
        ∪ {"Contributor"} ∪ (if false then {"Editor"} else (∅ : Finset String)) :=
  create_grants_role_union hashW [] vdCopyeditorW "Copyeditor" ["Contributor"]
    "Str0ngPass99" false (by decide) rfl rfl rfl rfl

/-- C9: a user freshly created with role Editor has the staff flag false, reads
back role Editor, and reads back is_editor true. -/
theorem create_editor_roundtrip (hash : String → String) (db : List SluglineUser)
    (vd : ValidatedData) (pw : String) (ed : Bool)
    (hc : (db.any (fun u => vd.username == some u.username)
        || FORBIDDEN_USERNAMES.contains (pyLower (vd.username.getD ""))) = false)
    (hp : vd.password = some pw) (he : vd.is_editor = some ed)
    (hr : vd.role = some "Editor") :
    ∃ u, (create hash db vd).1 = .ok u ∧ u.is_staff = false
      ∧ u.role = "Editor" ∧ u.is_editor = true := by
  have hl : groupsLookup "Editor" = some ["Copyeditor", "Contributor"] := rfl
  cases ed with
  | false =>
    simp only [create, hc, hp, he, hr, hl, Bool.false_eq_true, if_false]
    refine ⟨_, rfl, ?_, ?_, ?_⟩ <;>
      simp [SluglineUser.role, SluglineUser.is_editor, groups_add, set_password,
        objectsCreate]
  | true =>
    simp only [create, hc, hp, he, hr, hl, Bool.false_eq_true, if_false,
      eq_self_iff_true, if_true]
    refine ⟨_, rfl, ?_, ?_, ?_⟩ <;>
      simp [SluglineUser.role, SluglineUser.is_editor, groups_add, set_password,
        objectsCreate]

/-- Witness for C9 on a concrete editor-role create payload. -/
theorem create_editor_roundtrip_witness :
    ∃ u, (create hashW [] vdEditorW).1 = .ok u ∧ u.is_staff = false
      ∧ u.role = "Editor" ∧ u.is_editor = true :=
  create_editor_roundtrip hashW [] vdEditorW "Str0ngPass99" false
    (by decide) rfl rfl rfl

/-- Uppercasing leaves a dot unchanged. -/
theorem toUpper_dot : Char.toUpper '.' = '.' := by decide

/-- The rule-name transformation of the source (replace the first underscore, then
uppercase) agrees with the structural description used by the amended claim. -/
theorem replaceFirstUnderscore_upper (l : List Char) :
    (replaceFirstUnderscore l).map Char.toUpper = upperFirstSegSplit l := by
  induction l with
  | nil => rfl
  | cons c cs ih =>
    by_cases h : c = '_'
    · subst h
      simp [replaceFirstUnderscore, upperFirstSegSplit, toUpper_dot]
    · simp [replaceFirstUnderscore, upperFirstSegSplit, h, ih]

/-- The violation-code synthesis of the source emits exactly the codes the amended
claim describes. -/
theorem violationToCode_eq_amended (e : Violation) :
    violationToCode e = violationToCodeAmended e := by
  unfold violationToCode violationToCodeAmended
  rw [replaceFirstUnderscore_upper]

/-- C3 counterexample: for the standard minimum-length violation the claim wording
predicts the code USER.PASSWORD.TOO.SHORT.8, but the validation pass emits
USER.PASSWORD.TOO_SHORT.8, a different string: only the first underscore of the
rule name is converted. -/
theorem password_code_claim_counterexample :
    violationToCodeClaim ⟨"password_too_short", some ["8"]⟩
      = "USER.PASSWORD.TOO.SHORT.8" ∧
    validate (fun _ => true) (fun _ => [⟨"password_too_short", some ["8"]⟩])
        { password := some "x" }
      = .error [("password", ["USER.PASSWORD.TOO_SHORT.8"])] ∧
    ("USER.PASSWORD.TOO_SHORT.8" : String) ≠ "USER.PASSWORD.TOO.SHORT.8" :=
  ⟨by decide, rfl, by decide⟩

/-- C3 (amended): every password violation is mapped to a code of the form
USER.RULE.PARAMS where only the first underscore of the rule name becomes a dot
and the name is uppercased, and the parameters are comma-joined with spaces
replaced by underscores; all accumulated password violations are returned
together in one list under the password key. -/
theorem password_codes_amended (emailValid : String → Bool)
    (passwordPolicy : String → List Violation) (data : ValidatedData) (pw : String)
    (hp : data.password = some pw) (hv : passwordPolicy pw ≠ []) :
    ∃ errs, validate emailValid passwordPolicy data = .error errs ∧
      errs.lookup "password"
        = some ((passwordPolicy pw).map violationToCodeAmended) := by
  have hfe : violationToCodeAmended = violationToCode :=
    funext fun e => (violationToCode_eq_amended e).symm
  rw [hfe]
  rcases hpl : passwordPolicy pw with _ | ⟨v, vs⟩
  · exact absurd hpl hv
  · rcases hde : data.email with _ | em
    · refine ⟨[("password", violationToCode v :: vs.map violationToCode)], ?_, ?_⟩
      · simp [validate, hde, hp, hpl]
      · simp
    · by_cases hev : emailValid em = true
      · refine ⟨[("password", violationToCode v :: vs.map violationToCode)], ?_, ?_⟩
        · simp [validate, hde, hp, hpl, hev]
        · simp
      · rw [Bool.not_eq_true] at hev
        refine ⟨[("email", ["USER.EMAIL.INVALID"]),
          ("password", violationToCode v :: vs.map violationToCode)], ?_, ?_⟩
        · simp [validate, hde, hp, hpl, hev]
        · simp [List.lookup]

/-- Witness for the amended C3 at a concrete minimum-length violation. -/
theorem password_codes_amended_witness :
    ∃ errs, validate (fun _ => true)
        (fun _ => [⟨"password_too_short", some ["8"]⟩]) { password := some "x" }
        = .error errs ∧
      errs.lookup "password"
        = some (([⟨"password_too_short", some ["8"]⟩] : List Violation).map
            violationToCodeAmended) :=
  password_codes_amended (fun _ => true)
    (fun _ => [⟨"password_too_short", some ["8"]⟩]) { password := some "x" } "x"
    rfl (by decide)

/-- C5: a payload with an email that fails format validation makes the validation
pass raise the structured error map email to the single code USER.EMAIL.INVALID,
combined only with any password errors, and no record is created or mutated: both
save flows run validation strictly before the mutation and return the error with
the database untouched. -/
theorem invalid_email_blocks_save (emailValid : String → Bool)
    (passwordPolicy : String → List Violation) (hash : String → String)
    (db : List SluglineUser) (inst : SluglineUser) (data : ValidatedData)
    (em : String) (he : data.email = some em) (hbad : emailValid em = false) :
    ∃ errs, validate emailValid passwordPolicy data = .error errs ∧
      errs.lookup "email" = some ["USER.EMAIL.INVALID"] ∧
      (errs = [("email", ["USER.EMAIL.INVALID"])] ∨
        ∃ pcodes, errs = [("email", ["USER.EMAIL.INVALID"]), ("password", pcodes)]) ∧
      serializerSaveCreate emailValid passwordPolicy hash db data
        = (.error (.validationError errs), db) ∧
      serializerSaveUpdate emailValid passwordPolicy hash inst data
        = .error (.validationError errs) := by
  rcases hdp : data.password with _ | pw
  · refine ⟨[("email", ["USER.EMAIL.INVALID"])], ?_, rfl, Or.inl rfl, ?_, ?_⟩
    · simp [validate, he, hbad, hdp]
    · simp [serializerSaveCreate, validate, he, hbad, hdp]
    · simp [serializerSaveUpdate, validate, he, hbad, hdp]
  · rcases hpl : (passwordPolicy pw).map violationToCode with _ | ⟨c, cs⟩
    · refine ⟨[("email", ["USER.EMAIL.INVALID"])], ?_, rfl, Or.inl rfl, ?_, ?_⟩
      · simp [validate, he, hbad, hdp, hpl]
      · simp [serializerSaveCreate, validate, he, hbad, hdp, hpl]
      · simp [serializerSaveUpdate, validate, he, hbad, hdp, hpl]
    · refine ⟨[("email", ["USER.EMAIL.INVALID"]), ("password", c :: cs)], ?_, rfl,
        Or.inr ⟨c :: cs, rfl⟩, ?_, ?_⟩
      · simp [validate, he, hbad, hdp, hpl]
      · simp [serializerSaveCreate, validate, he, hbad, hdp, hpl]
      · simp [serializerSaveUpdate, validate, he, hbad, hdp, hpl]

/-- Witness for C5 on the spec example email, with an empty password policy. -/
theorem invalid_email_blocks_save_witness :
    ∃ errs, validate (fun _ => false) (fun _ => [])
        { email := some "not-an-email" } = .error errs ∧
      errs.lookup "email" = some ["USER.EMAIL.INVALID"] ∧
      (errs = [("email", ["USER.EMAIL.INVALID"])] ∨
        ∃ pcodes, errs = [("email", ["USER.EMAIL.INVALID"]), ("password", pcodes)]) ∧
      serializerSaveCreate (fun _ => false) (fun _ => []) hashW []
          { email := some "not-an-email" }
        = (.error (.validationError errs), []) ∧
      serializerSaveUpdate (fun _ => false) (fun _ => []) hashW userContribW
          { email := some "not-an-email" }
        = .error (.validationError errs) :=
  invalid_email_blocks_save (fun _ => false) (fun _ => []) hashW [] userContribW
    { email := some "not-an-email" } "not-an-email" rfl rfl

/-- C6: `create` persists the raw password verbatim before hashing it. The row
inserted by `SluglineUser.objects.create(**validated_data)` carries the plaintext
password; only the subsequent `set_password` and `save` overwrite it with the
hash, which differs from the plaintext. Evaluated at a concrete payload. -/
theorem create_persists_plaintext_before_hashing :
    (objectsCreate vdPlainPasswordW).password = "hunter2" ∧
    hashW "hunter2" ≠ "hunter2" ∧
    (∃ u, (create hashW [] vdPlainPasswordW).1 = .ok u
      ∧ u.password = hashW "hunter2") :=
  ⟨rfl, by decide, ⟨_, rfl, rfl⟩⟩

/-- C7: a validated payload without the optional role key makes `create` raise
KeyError("role") at the bracket access `validated_data["role"]` instead of
succeeding with groups Contributor only. -/
theorem create_missing_role_key_errors :
    (create hashW [] vdNoRoleW).1 = .error (.keyError "role") := rfl
